import Mathlib

/-!
Shallow embedding of the QuickNet session layer (QNET namespace of the C++
sources: Client.cpp, Server.cpp, ConnectionManager.cpp and their headers).

Conventions of the embedding:
* A connection handle (`HSteamNetConnection`) and a listen-socket handle
  (`HSteamListenSocket`) are `Nat`, with `0` standing for the invalid handle
  (`k_HSteamNetConnection_Invalid` / `k_HSteamListenSocket_Invalid`).
* The pointer `m_pInterface` to the transport facade is modelled as a `Bool`
  (`true` = the facade pointer is non-null).  A call into the facade is made
  observable as a `FacadeCall` value; every operation returns, next to its
  result and the updated object state, the list of facade calls it issued,
  in order.  Dereferencing the absent facade would mean emitting a
  `FacadeCall` from a state whose `m_pInterface` is `false`.
* Message payloads are opaque byte sequences, modelled as `List Nat`.
* External inputs that the transport decides (whether an address parses,
  which handle a creation call yields, per-connection inbound queues, error
  results) are passed as explicit parameters to the operation that consumes
  them, in the position of the corresponding C++ library call.
-/

namespace QNET

/-- Connection states of the transport, from `ESteamNetworkingConnectionState`.
Only the constructors the wrapper inspects are distinguished; every state the
C++ `switch` sends to its `default` branch is collapsed into `OtherState`. -/
inductive EConnState where
  | Connecting
  | FindingRoute
  | Connected
  | ClosedByPeer
  | ProblemDetectedLocally
  | OtherState
  deriving DecidableEq, Repr

/-- The invalid connection handle `k_HSteamNetConnection_Invalid`. -/
def k_HSteamNetConnection_Invalid : Nat := 0

/-- The invalid listen-socket handle `k_HSteamListenSocket_Invalid`. -/
def k_HSteamListenSocket_Invalid : Nat := 0

/-- A status-changed event (`SteamNetConnectionStatusChangedCallback_t`):
the connection handle `m_hConn` and the new state `m_info.m_eState`.  The
free-text diagnostic carried by the real event is only logged by the wrapper
and is not modelled. -/
structure StatusEvent where
  m_hConn : Nat
  m_eState : EConnState
  deriving DecidableEq, Repr

/-- One call into the transport facade, made observable.  Each constructor
corresponds to one `ISteamNetworkingSockets` member the wrapper invokes, or
to one of the two process-wide library routines. -/
inductive FacadeCall where
  | connectByIPAddress
  | createListenSocketIP (port : Nat)
  | acceptConnection (h : Nat)
  | closeConnection (h : Nat)
  | closeListenSocket (h : Nat)
  | sendMessageToConnection (h : Nat) (msg : List Nat)
  | receiveMessagesOnConnection (h : Nat)
  | runCallbacks
  | gnsInit
  | gnsKill
  deriving DecidableEq, Repr

/-- Client object state: the facade pointer (`m_pInterface`, as a non-null
flag) and the primary connection handle `m_hConnection` (Client.h). -/
structure Client where
  m_pInterface : Bool
  m_hConnection : Nat
  deriving DecidableEq, Repr

/-- A freshly constructed client as built by the repository's test program
(`std::make_unique<QNET::Client>()` value-initialises the object, so
`m_hConnection` starts at `k_HSteamNetConnection_Invalid`), with the facade
absent, i.e. `GameNetworkingSockets_Init` failed in the base constructor. -/
def clientNoFacade : Client :=
  { m_pInterface := false, m_hConnection := k_HSteamNetConnection_Invalid }

/-- `Client::IsConnected` (Client.cpp, lines 70-74): the connection is
considered active iff its handle is not `k_HSteamNetConnection_Invalid`. -/
def Client.IsConnected (c : Client) : Bool :=
  c.m_hConnection ≠ k_HSteamNetConnection_Invalid

/-- `Client::Connect` (Client.cpp, lines 13-43).  `parseOk` models the result
of `SteamNetworkingIPAddr::ParseString` on the given address text; `granted`
models the handle returned by `ISteamNetworkingSockets::ConnectByIPAddress`
(0 = `k_HSteamNetConnection_Invalid`).  Returns the `bool` result, the updated
client and the facade calls issued.  Note the source assigns
`m_hConnection = ConnectByIPAddress(...)` before checking it for validity. -/
def Client.Connect (c : Client) (parseOk : Bool) (granted : Nat) :
    Bool × Client × List FacadeCall :=
  if c.m_pInterface = false then (false, c, [])
  else if parseOk = false then (false, c, [])
  else
    let c2 := { c with m_hConnection := granted }
    if granted = k_HSteamNetConnection_Invalid then
      (false, c2, [FacadeCall.connectByIPAddress])
    else
      (true, c2, [FacadeCall.connectByIPAddress])

/-- `Client::Disconnect` (Client.cpp, lines 47-54): early return when the
facade is absent or the handle is invalid; otherwise `CloseConnection` and
invalidate the handle. -/
def Client.Disconnect (c : Client) : Client × List FacadeCall :=
  if c.m_pInterface = false ∨ c.m_hConnection = k_HSteamNetConnection_Invalid then
    (c, [])
  else
    ({ c with m_hConnection := k_HSteamNetConnection_Invalid },
     [FacadeCall.closeConnection c.m_hConnection])

/-- `Client::SendMessageToServer` (Client.cpp, lines 59-65): early return when
`IsConnected()` is false (the only guard in the source - it does not test
`m_pInterface`); otherwise one reliable `SendMessageToConnection`. -/
def Client.SendMessageToServer (c : Client) (msg : List Nat) :
    Client × List FacadeCall :=
  if c.IsConnected = false then (c, [])
  else (c, [FacadeCall.sendMessageToConnection c.m_hConnection msg])

/-- `Client::HandleConnectionStatusChanged` (Client.cpp, lines 80-110):
events for a handle other than the current primary connection are ignored;
`Connected` is only logged; `ClosedByPeer` / `ProblemDetectedLocally` close
the connection formally and invalidate the local handle; all other states
fall to the `default` branch. -/
def Client.HandleConnectionStatusChanged (c : Client) (ev : StatusEvent) :
    Client × List FacadeCall :=
  if ev.m_hConn ≠ c.m_hConnection then (c, [])
  else
    match ev.m_eState with
    | EConnState.ClosedByPeer =>
        ({ c with m_hConnection := k_HSteamNetConnection_Invalid },
         [FacadeCall.closeConnection ev.m_hConn])
    | EConnState.ProblemDetectedLocally =>
        ({ c with m_hConnection := k_HSteamNetConnection_Invalid },
         [FacadeCall.closeConnection ev.m_hConn])
    | _ => (c, [])

/-- The shared per-message body of the receive loops (Client.cpp, lines
125-141 and Server.cpp, lines 189-203): for each drained message, if it is
non-null and `m_cbSize > 0`, invoke the callback (when one is set) and then
`Release` it; a zero-size message is neither delivered nor released.
Returns (callback invocations, released messages), each in loop order. -/
def processInbound (cbSet : Bool) : List (List Nat) → List (List Nat) × List (List Nat)
  | [] => ([], [])
  | m :: rest =>
      let r := processInbound cbSet rest
      if m.length > 0 then
        ((if cbSet then m :: r.1 else r.1), m :: r.2)
      else r

/-- `Client::ReceiveMessages` (Client.cpp, lines 116-143): early return when
not connected; otherwise one `ReceiveMessagesOnConnection` with a buffer of
16, so at most 16 messages (`queue.take 16`) are drained, then the per-message
loop.  `queue` models the connection's pending inbound messages, `cbSet`
whether `OnMessageReceived` has been assigned.  Returns (facade calls,
callback invocations, released messages). -/
def Client.ReceiveMessages (c : Client) (queue : List (List Nat)) (cbSet : Bool) :
    List FacadeCall × List (List Nat) × List (List Nat) :=
  if c.IsConnected = false then ([], [], [])
  else
    let r := processInbound cbSet (queue.take 16)
    ([FacadeCall.receiveMessagesOnConnection c.m_hConnection], r.1, r.2)

/-- `ConnectionManager::Poll` (ConnectionManager.cpp, lines 52-59), as seen
from a client: nothing when the facade is absent, otherwise `RunCallbacks`. -/
def Client.Poll (c : Client) : Client × List FacadeCall :=
  if c.m_pInterface = false then (c, [])
  else (c, [FacadeCall.runCallbacks])

/-- Server object state (Server.h): the facade pointer, the listen socket
handle `m_hListenSocket`, the vector `m_vecClients` of connected client
handles (order-sensitive: a `std::vector`), and the `m_isRunning` flag. -/
structure Server where
  m_pInterface : Bool
  m_hListenSocket : Nat
  m_vecClients : List Nat
  m_isRunning : Bool
  deriving DecidableEq, Repr

/-- A freshly constructed server whose base constructor failed to acquire the
facade (`m_pInterface` null): no listen socket, empty registry, not running. -/
def serverNoFacade : Server :=
  { m_pInterface := false, m_hListenSocket := k_HSteamListenSocket_Invalid,
    m_vecClients := [], m_isRunning := false }

/-- `Server::Initialize` (Server.cpp, lines 16-48).  `granted` models the
handle returned by `CreateListenSocketIP` (0 = `k_HSteamListenSocket_Invalid`).
The source assigns `m_hListenSocket = CreateListenSocketIP(...)` before
checking it for validity. -/
def Server.Initialize (s : Server) (port : Nat) (granted : Nat) :
    Bool × Server × List FacadeCall :=
  if s.m_pInterface = false then (false, s, [])
  else
    let s2 := { s with m_hListenSocket := granted }
    if granted = k_HSteamListenSocket_Invalid then
      (false, s2, [FacadeCall.createListenSocketIP port])
    else
      (true, s2, [FacadeCall.createListenSocketIP port])

/-- `Server::Stop` (Server.cpp, lines 63-87): clear `m_isRunning`; if the
facade is absent, return; otherwise `CloseConnection` every registry entry,
clear the registry, and close the listen socket when it is valid. -/
def Server.Stop (s : Server) : Server × List FacadeCall :=
  let s1 := { s with m_isRunning := false }
  if s.m_pInterface = false then (s1, [])
  else
    let closes := s.m_vecClients.map (fun h => FacadeCall.closeConnection h)
    let s2 := { s1 with m_vecClients := [] }
    if s.m_hListenSocket ≠ k_HSteamListenSocket_Invalid then
      ({ s2 with m_hListenSocket := k_HSteamListenSocket_Invalid },
       closes ++ [FacadeCall.closeListenSocket s.m_hListenSocket])
    else (s2, closes)

/-- `Server::BroadcastMessage` (Server.cpp, lines 92-104): nothing when the
facade is absent; otherwise one reliable `SendMessageToConnection` per entry
of `m_vecClients`, in vector order.  The source discards the result of each
send, so the iteration does not depend on per-peer send outcomes. -/
def Server.BroadcastMessage (s : Server) (msg : List Nat) :
    Server × List FacadeCall :=
  if s.m_pInterface = false then (s, [])
  else (s, s.m_vecClients.map (fun h => FacadeCall.sendMessageToConnection h msg))

/-- The effect of `std::remove(v.begin(), v.end(), x)` followed by the
source's single-element `v.erase(it)` when `it != v.end()` (Server.cpp,
lines 154-158).  After `std::remove`, positions `0..k-1` hold the kept
elements (`k` = number of elements different from `x`, order preserved,
writes only ever happen at indices below the read index) and positions
`k..n-1` still hold their original values; `erase(it)` with `it = begin+k`
then removes the single element at index `k`.  So: when `x` does not occur,
the vector is unchanged; otherwise the result is
`filter (· ≠ x) v ++ v.drop (k+1)`. -/
def removeEraseOne (v : List Nat) (x : Nat) : List Nat :=
  let kept := v.filter (fun y => y ≠ x)
  if kept.length = v.length then v
  else kept ++ v.drop (kept.length + 1)

/-- `Server::HandleConnectionStatusChanged` (Server.cpp, lines 110-169).
`acceptOk` models `AcceptConnection(...) == k_EResultOK`.  `Connecting`:
accept, closing the connection when acceptance fails.  `Connected`:
`push_back` the handle onto the registry (unconditionally).  `ClosedByPeer`
or `ProblemDetectedLocally`: close the connection and run the
`std::remove` + single `erase` of the source.  Other states are ignored. -/
def Server.HandleConnectionStatusChanged (s : Server) (ev : StatusEvent)
    (acceptOk : Bool) : Server × List FacadeCall :=
  match ev.m_eState with
  | EConnState.Connecting =>
      if acceptOk = false then
        (s, [FacadeCall.acceptConnection ev.m_hConn,
             FacadeCall.closeConnection ev.m_hConn])
      else
        (s, [FacadeCall.acceptConnection ev.m_hConn])
  | EConnState.Connected =>
      ({ s with m_vecClients := s.m_vecClients ++ [ev.m_hConn] }, [])
  | EConnState.ClosedByPeer =>
      ({ s with m_vecClients := removeEraseOne s.m_vecClients ev.m_hConn },
       [FacadeCall.closeConnection ev.m_hConn])
  | EConnState.ProblemDetectedLocally =>
      ({ s with m_vecClients := removeEraseOne s.m_vecClients ev.m_hConn },
       [FacadeCall.closeConnection ev.m_hConn])
  | _ => (s, [])

/-- The per-peer sweep of `Server::ReceiveMessages` (Server.cpp, lines
178-204): for each handle of the registry in order, one
`ReceiveMessagesOnConnection`; a negative result (`err h = true`) skips that
peer via `continue`; otherwise at most 16 messages of that peer's queue are
drained and fed to the shared per-message loop.  Returns (facade calls,
callback invocations as (handle, bytes) pairs, released messages). -/
def sweepPeers (queues : Nat → List (List Nat)) (err : Nat → Bool) (cbSet : Bool) :
    List Nat → List FacadeCall × List (Nat × List Nat) × List (List Nat)
  | [] => ([], [], [])
  | h :: rest =>
      let r := sweepPeers queues err cbSet rest
      if err h = true then
        (FacadeCall.receiveMessagesOnConnection h :: r.1, r.2)
      else
        let p := processInbound cbSet ((queues h).take 16)
        (FacadeCall.receiveMessagesOnConnection h :: r.1,
         p.1.map (fun m => (h, m)) ++ r.2.1, p.2 ++ r.2.2)

/-- `Server::ReceiveMessages` (Server.cpp, lines 173-205): nothing when the
facade is absent; otherwise the per-peer sweep over `m_vecClients`.  The
server state itself is returned unchanged, mirroring that the method only
reads `m_vecClients`. -/
def Server.ReceiveMessages (s : Server) (queues : Nat → List (List Nat))
    (err : Nat → Bool) (cbSet : Bool) :
    Server × List FacadeCall × List (Nat × List Nat) × List (List Nat) :=
  if s.m_pInterface = false then (s, [], [], [])
  else (s, sweepPeers queues err cbSet s.m_vecClients)

/-- `ConnectionManager::Poll` as seen from a server. -/
def Server.Poll (s : Server) : Server × List FacadeCall :=
  if s.m_pInterface = false then (s, [])
  else (s, [FacadeCall.runCallbacks])

/-- Folds a list of status events (each with its `AcceptConnection` outcome)
through `Server.HandleConnectionStatusChanged`, keeping only the state. -/
def Server.processEvents (s : Server) : List (StatusEvent × Bool) → Server
  | [] => s
  | e :: rest =>
      Server.processEvents (Server.HandleConnectionStatusChanged s e.1 e.2).1 rest

/-- A session object, for the global dispatch: the base class
`ConnectionManager` is concretely either a `Client` or a `Server`, and the
virtual `HandleConnectionStatusChanged` resolves to the role's handler. -/
inductive Session where
  | client (c : Client)
  | server (s : Server)
  deriving DecidableEq, Repr

/-- The virtual dispatch of `HandleConnectionStatusChanged` over the two
roles.  `acceptOk` is only consulted by the server handler. -/
def Session.HandleConnectionStatusChanged (ss : Session) (ev : StatusEvent)
    (acceptOk : Bool) : Session × List FacadeCall :=
  match ss with
  | Session.client c =>
      let r := Client.HandleConnectionStatusChanged c ev
      (Session.client r.1, r.2)
  | Session.server s =>
      let r := Server.HandleConnectionStatusChanged s ev acceptOk
      (Session.server r.1, r.2)

/-- `ConnectionManager::OnGlobalConnectionStatusChanged`
(ConnectionManager.cpp, lines 11-20).  The event's `m_nUserData` is the
pointer stored at connection-creation time, modelled as `Option Nat`: `none`
is the null pointer, `some sid` the address of session `sid` in the ambient
map `sessions`.  A null context is silently dropped; otherwise exactly the
owning session's handler runs and only that session's state is replaced. -/
def OnGlobalConnectionStatusChanged (sessions : Nat → Session)
    (userData : Option Nat) (ev : StatusEvent) (acceptOk : Bool) :
    (Nat → Session) × List FacadeCall :=
  match userData with
  | none => (sessions, [])
  | some sid =>
      let r := Session.HandleConnectionStatusChanged (sessions sid) ev acceptOk
      (fun i => if i = sid then r.1 else sessions i, r.2)

/-- Process-wide view for the `ConnectionManager` constructor/destructor pair
(ConnectionManager.cpp, lines 26-47): the set of live session identifiers and,
per destructor run, how many sessions remained live afterwards. -/
structure ProcState where
  live : List Nat
  calls : List FacadeCall
  liveAfterKill : List Nat
  deriving DecidableEq, Repr

/-- The empty process: no sessions ever constructed. -/
def procStart : ProcState := { live := [], calls := [], liveAfterKill := [] }

/-- `ConnectionManager::ConnectionManager`: every construction calls
`GameNetworkingSockets_Init` unconditionally. -/
def ProcState.construct (p : ProcState) (sid : Nat) : ProcState :=
  { p with live := p.live ++ [sid], calls := p.calls ++ [FacadeCall.gnsInit] }

/-- `ConnectionManager::~ConnectionManager`: every destruction calls
`GameNetworkingSockets_Kill` unconditionally, whatever other sessions exist. -/
def ProcState.destruct (p : ProcState) (sid : Nat) : ProcState :=
  let remaining := p.live.filter (fun x => x ≠ sid)
  { live := remaining, calls := p.calls ++ [FacadeCall.gnsKill],
    liveAfterKill := p.liveAfterKill ++ [remaining.length] }

/-- A constructor or destructor step of some session. -/
inductive ProcOp where
  | construct (sid : Nat)
  | destruct (sid : Nat)
  deriving DecidableEq, Repr

/-- Runs a construction/destruction trace from the empty process. -/
def runProc : List ProcOp → ProcState :=
  let step := fun (p : ProcState) (op : ProcOp) =>
    match op with
    | ProcOp.construct sid => p.construct sid
    | ProcOp.destruct sid => p.destruct sid
  fun ops => ops.foldl step procStart

/-- One public client operation, with the external inputs its execution
consumes (`Run` is not part of the client interface). -/
inductive ClientOp where
  | connect (parseOk : Bool) (granted : Nat)
  | disconnect
  | send (msg : List Nat)
  | receive (queue : List (List Nat)) (cbSet : Bool)
  | poll
  deriving Repr

/-- Applies one public client operation, returning the new state and the
facade calls it issued (results and callback data are dropped here). -/
def Client.applyOp (c : Client) : ClientOp → Client × List FacadeCall
  | ClientOp.connect parseOk granted =>
      let r := c.Connect parseOk granted
      (r.2.1, r.2.2)
  | ClientOp.disconnect => c.Disconnect
  | ClientOp.send msg => c.SendMessageToServer msg
  | ClientOp.receive queue cbSet =>
      let r := c.ReceiveMessages queue cbSet
      (c, r.1)
  | ClientOp.poll => c.Poll

/-- Runs a sequence of public client operations, accumulating facade calls. -/
def Client.runOps (c : Client) : List ClientOp → Client × List FacadeCall
  | [] => (c, [])
  | op :: rest =>
      let r := c.applyOp op
      let rr := Client.runOps r.1 rest
      (rr.1, r.2 ++ rr.2)

/-- One public server operation, with the external inputs its execution
consumes (`Run` is the blocking convenience loop and is excluded). -/
inductive ServerOp where
  | initListen (port : Nat) (granted : Nat)
  | stop
  | broadcast (msg : List Nat)
  | receive (queues : Nat → List (List Nat)) (err : Nat → Bool) (cbSet : Bool)
  | poll

/-- Applies one public server operation, returning the new state and the
facade calls it issued. -/
def Server.applyOp (s : Server) : ServerOp → Server × List FacadeCall
  | ServerOp.initListen port granted =>
      let r := s.Initialize port granted
      (r.2.1, r.2.2)
  | ServerOp.stop => s.Stop
  | ServerOp.broadcast msg => s.BroadcastMessage msg
  | ServerOp.receive queues err cbSet =>
      let r := s.ReceiveMessages queues err cbSet
      (r.1, r.2.1)
  | ServerOp.poll => s.Poll

/-- Runs a sequence of public server operations, accumulating facade calls. -/
def Server.runOps (s : Server) : List ServerOp → Server × List FacadeCall
  | [] => (s, [])
  | op :: rest =>
      let r := s.applyOp op
      let rr := Server.runOps r.1 rest
      (rr.1, r.2 ++ rr.2)

/-- Modelled from the spec, for comparison with the code's registry: the set
of handles whose most recent event was `Connected` with no later terminal
event.  A duplicate `Connected` leaves the registry unchanged (first
occurrence wins); a terminal event removes the handle, a no-op if absent;
all other states leave the registry unchanged. -/
def specRegistry : List (StatusEvent × Bool) → List Nat → List Nat
  | [], reg => reg
  | e :: rest, reg =>
      let reg2 :=
        match e.1.m_eState with
        | EConnState.Connected =>
            if reg.contains e.1.m_hConn then reg else reg ++ [e.1.m_hConn]
        | EConnState.ClosedByPeer => reg.filter (fun y => y ≠ e.1.m_hConn)
        | EConnState.ProblemDetectedLocally => reg.filter (fun y => y ≠ e.1.m_hConn)
        | _ => reg
      specRegistry rest reg2

/-- The per-message loop delivers and releases exactly the positive-size
messages of the drained batch, in batch order; with no callback set it still
releases them. -/
lemma processInbound_eq (cbSet : Bool) (l : List (List Nat)) :
    processInbound cbSet l =
      ((if cbSet then l.filter (fun m => m.length > 0) else []),
       l.filter (fun m => m.length > 0)) := by
  induction l with
  | nil => cases cbSet <;> rfl
  | cons m rest ih =>
      by_cases hm : m.length > 0 <;>
        cases cbSet <;>
          simp [processInbound, ih, List.filter_cons, hm]

/-- The receive sweep issues exactly one `ReceiveMessagesOnConnection` per
listed handle, in list order, whatever the per-peer error outcomes. -/
lemma sweepPeers_calls (queues : Nat → List (List Nat)) (err : Nat → Bool)
    (cbSet : Bool) (l : List Nat) :
    (sweepPeers queues err cbSet l).1 =
      l.map (fun h => FacadeCall.receiveMessagesOnConnection h) := by
  induction l with
  | nil => rfl
  | cons h rest ih =>
      simp only [sweepPeers, List.map_cons]
      split <;> simp [ih]

/-- With the facade absent, every public client operation returns the state
unchanged and issues no facade call. -/
lemma clientNoFacade_applyOp (op : ClientOp) :
    Client.applyOp clientNoFacade op = (clientNoFacade, []) := by
  cases op <;> rfl

/-- With the facade absent, every sequence of public client operations
returns the state unchanged and issues no facade call. -/
lemma clientNoFacade_runOps (ops : List ClientOp) :
    Client.runOps clientNoFacade ops = (clientNoFacade, []) := by
  induction ops with
  | nil => rfl
  | cons op rest ih => simp [Client.runOps, clientNoFacade_applyOp, ih]

/-- With the facade absent, every public server operation returns the state
unchanged and issues no facade call. -/
lemma serverNoFacade_applyOp (op : ServerOp) :
    Server.applyOp serverNoFacade op = (serverNoFacade, []) := by
  cases op <;> rfl

/-- With the facade absent, every sequence of public server operations
returns the state unchanged and issues no facade call. -/
lemma serverNoFacade_runOps (ops : List ServerOp) :
    Server.runOps serverNoFacade ops = (serverNoFacade, []) := by
  induction ops with
  | nil => rfl
  | cons op rest ih => simp [Server.runOps, serverNoFacade_applyOp, ih]

/-- C1 (counterexample).  The claim as stated is false on the code: with the
facade available, `Connect` on a fresh client with a parsable address and a
transport-granted handle 5 returns `true`, and `IsConnected()` is already
`true` before any `Connected` status event has been processed, because
`IsConnected` only tests handle validity and `Connect` has set the handle. -/
theorem claim1_counterexample :
    (Client.Connect { m_pInterface := true, m_hConnection := 0 } true 5).1 = true
    ∧ Client.IsConnected
        (Client.Connect { m_pInterface := true, m_hConnection := 0 } true 5).2.1 = true := by
  decide

/-- C1 (amended).  `IsConnected()` returns true iff the local connection
handle is valid (not `k_HSteamNetConnection_Invalid`), not iff the state is
`Connected`; in particular, whenever `Connect(address)` returns true,
`IsConnected()` returns true already before any `Connected` status event has
been processed. -/
theorem claim1_thm (c : Client) :
    (c.IsConnected = true ↔ c.m_hConnection ≠ k_HSteamNetConnection_Invalid)
    ∧ ∀ parseOk granted, (c.Connect parseOk granted).1 = true →
        Client.IsConnected (c.Connect parseOk granted).2.1 = true := by
  constructor
  · simp [Client.IsConnected]
  · intro parseOk granted h
    unfold Client.Connect at h ⊢
    split at h
    · simp at h
    · split at h
      · simp at h
      · split at h
        · simp at h
        · simp_all [Client.IsConnected, k_HSteamNetConnection_Invalid]

/-- C1 (witness): the amended theorem applied to the fresh client with the
facade available, a parsable address, and transport-granted handle 5. -/
theorem claim1_witness :
    (Client.Connect { m_pInterface := true, m_hConnection := 0 } true 5).1 = true
    ∧ Client.IsConnected
        (Client.Connect { m_pInterface := true, m_hConnection := 0 } true 5).2.1 = true
    ∧ (Client.IsConnected { m_pInterface := true, m_hConnection := 0 } = true
        ↔ ({ m_pInterface := true, m_hConnection := 0 } : Client).m_hConnection
            ≠ k_HSteamNetConnection_Invalid) :=
  ⟨by decide,
   (claim1_thm { m_pInterface := true, m_hConnection := 0 }).2 true 5 (by decide),
   (claim1_thm { m_pInterface := true, m_hConnection := 0 }).1⟩

/-- C2.  The registry invariant fails on the code at the event sequence
[`Connected` 1, `Connected` 1, `ClosedByPeer` 1]: the unconditional
`push_back` admits the duplicate, and the terminal event's
`std::remove` + single-element `erase` then leaves one copy of handle 1 in
`m_vecClients`, although the last event for handle 1 was terminal, so the
spec's model registry is empty. -/
theorem claim2_thm :
    (Server.processEvents
        { m_pInterface := true, m_hListenSocket := 7, m_vecClients := [],
          m_isRunning := true }
        [({ m_hConn := 1, m_eState := EConnState.Connected }, true),
         ({ m_hConn := 1, m_eState := EConnState.Connected }, true),
         ({ m_hConn := 1, m_eState := EConnState.ClosedByPeer }, true)]).m_vecClients
      = [1]
    ∧ specRegistry
        [({ m_hConn := 1, m_eState := EConnState.Connected }, true),
         ({ m_hConn := 1, m_eState := EConnState.Connected }, true),
         ({ m_hConn := 1, m_eState := EConnState.ClosedByPeer }, true)] []
      = [] := by
  decide

/-- C3.  When the transport facade failed to acquire (`m_pInterface` null),
every sequence of public operations - Connect, Disconnect,
SendMessageToServer, ReceiveMessages, Poll on the client; listen setup, Stop,
BroadcastMessage, ReceiveMessages, Poll on the server - leaves the session
state unchanged and issues no facade call at all, for every argument: the
facade is never dereferenced. -/
theorem claim3_thm (cops : List ClientOp) (sops : List ServerOp) :
    Client.runOps clientNoFacade cops = (clientNoFacade, [])
    ∧ Server.runOps serverNoFacade sops = (serverNoFacade, []) :=
  ⟨clientNoFacade_runOps cops, serverNoFacade_runOps sops⟩

/-- C4.  The claim fails on the code: each `ConnectionManager` construction
runs `GameNetworkingSockets_Init` and each destruction runs
`GameNetworkingSockets_Kill`, unconditionally.  On the trace
construct 1; construct 2; destruct 1 (the repository's own test program
constructs a `Server` and a `Client` together), the process-wide init is
performed twice, and the kill is performed while one session is still live. -/
theorem claim4_thm :
    (runProc [ProcOp.construct 1, ProcOp.construct 2,
              ProcOp.destruct 1]).calls.count FacadeCall.gnsInit = 2
    ∧ (runProc [ProcOp.construct 1, ProcOp.construct 2,
                ProcOp.destruct 1]).liveAfterKill = [1] := by
  decide

/-- C5.  `Stop()` is idempotent: a second `Stop()` returns exactly the state
the first one produced and issues no facade call (so no error can surface);
after one `Stop()` the running flag is false and - on any state where an
absent facade comes with the empty registry and closed endpoint, which holds
for all reachable states - the registry is empty and the listening endpoint
is closed. -/
theorem claim5_thm (s : Server) :
    (Server.Stop (Server.Stop s).1).1 = (Server.Stop s).1
    ∧ (Server.Stop (Server.Stop s).1).2 = []
    ∧ (Server.Stop s).1.m_isRunning = false
    ∧ ((s.m_pInterface = false →
          s.m_vecClients = [] ∧ s.m_hListenSocket = k_HSteamListenSocket_Invalid) →
        (Server.Stop s).1.m_vecClients = []
        ∧ (Server.Stop s).1.m_hListenSocket = k_HSteamListenSocket_Invalid) := by
  by_cases hi : s.m_pInterface = false
  · refine ⟨?_, ?_, ?_, ?_⟩ <;>
      simp [Server.Stop, hi]
  · by_cases hl : s.m_hListenSocket = k_HSteamListenSocket_Invalid <;>
      refine ⟨?_, ?_, ?_, ?_⟩ <;>
        simp [Server.Stop, hi, hl]

/-- C5 (witness): stopping a running server holding peers 3 and 4 and listen
socket 7, twice. -/
theorem claim5_witness :
    (Server.Stop (Server.Stop
        { m_pInterface := true, m_hListenSocket := 7, m_vecClients := [3, 4],
          m_isRunning := true }).1).1
      = (Server.Stop
        { m_pInterface := true, m_hListenSocket := 7, m_vecClients := [3, 4],
          m_isRunning := true }).1
    ∧ (Server.Stop (Server.Stop
        { m_pInterface := true, m_hListenSocket := 7, m_vecClients := [3, 4],
          m_isRunning := true }).1).2 = []
    ∧ (Server.Stop
        { m_pInterface := true, m_hListenSocket := 7, m_vecClients := [3, 4],
          m_isRunning := true }).1.m_vecClients = []
    ∧ (Server.Stop
        { m_pInterface := true, m_hListenSocket := 7, m_vecClients := [3, 4],
          m_isRunning := true }).1.m_hListenSocket = k_HSteamListenSocket_Invalid
    ∧ (Server.Stop
        { m_pInterface := true, m_hListenSocket := 7, m_vecClients := [3, 4],
          m_isRunning := true }).1.m_isRunning = false := by
  have h := claim5_thm
    { m_pInterface := true, m_hListenSocket := 7, m_vecClients := [3, 4],
      m_isRunning := true }
  exact ⟨h.1, h.2.1, (h.2.2.2 (by decide)).1, (h.2.2.2 (by decide)).2, h.2.2.1⟩

/-- C6.  With the facade available, `BroadcastMessage` issues exactly one
transport send per handle of `m_vecClients`, in registry order - the source
discards every send result, so the sequence of sends cannot depend on any
per-peer failure - and the receive sweep issues exactly one per-peer drain
call per registry handle in registry order, whatever the per-peer drain
error outcomes `err` are: an error for one peer never suppresses the calls
for the remaining peers. -/
theorem claim6_thm (s : Server) (msg : List Nat) (queues : Nat → List (List Nat))
    (err : Nat → Bool) (cbSet : Bool) (hi : s.m_pInterface = true) :
    (s.BroadcastMessage msg).2
      = s.m_vecClients.map (fun h => FacadeCall.sendMessageToConnection h msg)
    ∧ (s.ReceiveMessages queues err cbSet).2.1
      = s.m_vecClients.map (fun h => FacadeCall.receiveMessagesOnConnection h) := by
  constructor
  · simp [Server.BroadcastMessage, hi]
  · simp [Server.ReceiveMessages, hi, sweepPeers_calls]

/-- C6 (witness): registry [3, 4, 5], a drain error injected for peer 4:
all three sends and all three drain calls are still issued, in order. -/
theorem claim6_witness :
    (Server.BroadcastMessage
        { m_pInterface := true, m_hListenSocket := 7, m_vecClients := [3, 4, 5],
          m_isRunning := true } [9]).2
      = [FacadeCall.sendMessageToConnection 3 [9],
         FacadeCall.sendMessageToConnection 4 [9],
         FacadeCall.sendMessageToConnection 5 [9]]
    ∧ (Server.ReceiveMessages
        { m_pInterface := true, m_hListenSocket := 7, m_vecClients := [3, 4, 5],
          m_isRunning := true } (fun _ => [[1]]) (fun h => h = 4) true).2.1
      = [FacadeCall.receiveMessagesOnConnection 3,
         FacadeCall.receiveMessagesOnConnection 4,
         FacadeCall.receiveMessagesOnConnection 5] :=
  claim6_thm
    { m_pInterface := true, m_hListenSocket := 7, m_vecClients := [3, 4, 5],
      m_isRunning := true } [9] (fun _ => [[1]]) (fun h => h = 4) true (by decide)

/-- C7.  `Disconnect()` is a no-op when the handle is invalid; otherwise it
issues one graceful close and immediately invalidates the handle.  After
`Disconnect()` (on any state where an absent facade comes with an invalid
handle, which holds for all reachable states), and after a terminal status
event for the primary connection, `IsConnected()` is false; and whenever
`IsConnected()` is false, `SendMessageToServer` issues no transport send. -/
theorem claim7_thm (c : Client) (msg : List Nat) (ev : StatusEvent) :
    (c.m_hConnection = k_HSteamNetConnection_Invalid → c.Disconnect = (c, []))
    ∧ (c.m_pInterface = true → c.m_hConnection ≠ k_HSteamNetConnection_Invalid →
        c.Disconnect = ({ c with m_hConnection := k_HSteamNetConnection_Invalid },
                        [FacadeCall.closeConnection c.m_hConnection]))
    ∧ ((c.m_pInterface = false → c.m_hConnection = k_HSteamNetConnection_Invalid) →
        Client.IsConnected c.Disconnect.1 = false)
    ∧ (ev.m_hConn = c.m_hConnection →
        (ev.m_eState = EConnState.ClosedByPeer
          ∨ ev.m_eState = EConnState.ProblemDetectedLocally) →
        Client.IsConnected (c.HandleConnectionStatusChanged ev).1 = false)
    ∧ (Client.IsConnected c = false → c.SendMessageToServer msg = (c, [])) := by
  refine ⟨?_, ?_, ?_, ?_, ?_⟩
  · intro h
    simp [Client.Disconnect, h]
  · intro hp hc
    simp [Client.Disconnect, hp, hc]
  · intro hinv
    by_cases hp : c.m_pInterface = false
    · simp [Client.Disconnect, hp, hinv hp, Client.IsConnected,
        k_HSteamNetConnection_Invalid]
    · by_cases hc : c.m_hConnection = k_HSteamNetConnection_Invalid
      · simp [Client.Disconnect, hc, Client.IsConnected,
          k_HSteamNetConnection_Invalid]
      · simp only [k_HSteamNetConnection_Invalid] at hc
        simp [Client.Disconnect, hp, hc, Client.IsConnected,
          k_HSteamNetConnection_Invalid]
  · intro he hst
    rcases hst with h | h <;>
      simp [Client.HandleConnectionStatusChanged, he, h, Client.IsConnected,
        k_HSteamNetConnection_Invalid]
  · intro h
    simp [Client.SendMessageToServer, h]

/-- C7 (witness): a connected client on handle 5 - disconnecting closes and
invalidates; a terminal event for handle 5 invalidates; with the handle
invalid, a send issues no facade call. -/
theorem claim7_witness :
    Client.Disconnect { m_pInterface := true, m_hConnection := 5 }
      = ({ m_pInterface := true, m_hConnection := 0 },
         [FacadeCall.closeConnection 5])
    ∧ Client.IsConnected
        (Client.Disconnect { m_pInterface := true, m_hConnection := 5 }).1 = false
    ∧ Client.IsConnected
        (Client.HandleConnectionStatusChanged { m_pInterface := true, m_hConnection := 5 }
          { m_hConn := 5, m_eState := EConnState.ClosedByPeer }).1 = false
    ∧ Client.SendMessageToServer { m_pInterface := true, m_hConnection := 0 } [9]
      = ({ m_pInterface := true, m_hConnection := 0 }, []) :=
  ⟨(claim7_thm { m_pInterface := true, m_hConnection := 5 } [9]
      { m_hConn := 5, m_eState := EConnState.ClosedByPeer }).2.1
      (by decide) (by decide),
   (claim7_thm { m_pInterface := true, m_hConnection := 5 } [9]
      { m_hConn := 5, m_eState := EConnState.ClosedByPeer }).2.2.1 (by decide),
   (claim7_thm { m_pInterface := true, m_hConnection := 5 } [9]
      { m_hConn := 5, m_eState := EConnState.ClosedByPeer }).2.2.2.1
      (by decide) (Or.inl (by decide)),
   (claim7_thm { m_pInterface := true, m_hConnection := 0 } [9]
      { m_hConn := 5, m_eState := EConnState.ClosedByPeer }).2.2.2.2 (by decide)⟩

/-- C8 (counterexample).  The claim as stated is false on the code: a
connected client draining a queue holding one zero-size message drains one
message (`take 16` keeps it) but releases nothing - the source's
`m_cbSize > 0` guard skips the message without invoking the callback and
without `Release`. -/
theorem claim8_counterexample :
    (([[]] : List (List Nat)).take 16).length = 1
    ∧ (Client.ReceiveMessages { m_pInterface := true, m_hConnection := 5 }
        [[]] true).2.2 = [] := by
  decide

/-- C8 (amended).  `ReceiveMessages()` is a no-op when not connected;
otherwise it issues exactly one drain call for at most 16 messages and, for
every message of positive size drained in that call, invokes the registered
callback with that message's bytes (in drain order) and releases it, while
zero-size messages are skipped: neither delivered nor released. -/
theorem claim8_thm (c : Client) (queue : List (List Nat)) (cbSet : Bool) :
    (Client.IsConnected c = false → c.ReceiveMessages queue cbSet = ([], [], []))
    ∧ (Client.IsConnected c = true →
        (c.ReceiveMessages queue cbSet).1
          = [FacadeCall.receiveMessagesOnConnection c.m_hConnection]
        ∧ (c.ReceiveMessages queue cbSet).2.2
          = (queue.take 16).filter (fun m => m.length > 0)
        ∧ (c.ReceiveMessages queue cbSet).2.1
          = (if cbSet then (queue.take 16).filter (fun m => m.length > 0) else [])
        ∧ (queue.take 16).length ≤ 16) := by
  constructor
  · intro h
    simp [Client.ReceiveMessages, h]
  · intro h
    refine ⟨?_, ?_, ?_, ?_⟩ <;>
      simp [Client.ReceiveMessages, h, processInbound_eq, List.length_take]

/-- C8 (witness): connected on handle 5, queue [[1,2], [], [3]], callback
registered - the two positive-size messages are delivered and released in
order, the zero-size one is skipped. -/
theorem claim8_witness :
    Client.IsConnected { m_pInterface := true, m_hConnection := 5 } = true
    ∧ (Client.ReceiveMessages { m_pInterface := true, m_hConnection := 5 }
        [[1, 2], [], [3]] true).2.2 = [[1, 2], [3]]
    ∧ (Client.ReceiveMessages { m_pInterface := true, m_hConnection := 5 }
        [[1, 2], [], [3]] true).2.1 = [[1, 2], [3]] :=
  ⟨by decide,
   ((claim8_thm { m_pInterface := true, m_hConnection := 5 }
      [[1, 2], [], [3]] true).2 (by decide)).2.1,
   ((claim8_thm { m_pInterface := true, m_hConnection := 5 }
      [[1, 2], [], [3]] true).2 (by decide)).2.2.1⟩

/-- C9.  The global dispatch entry point: a null user-data context is a
silent no-op - every session state is unchanged and no facade call is made -
and a context owned by session `sid` runs exactly that session's
status-changed handler on the event, replacing only that session's state:
every other session is untouched. -/
theorem claim9_thm (sessions : Nat → Session) (ev : StatusEvent) (acceptOk : Bool) :
    ((OnGlobalConnectionStatusChanged sessions none ev acceptOk).2 = []
      ∧ ∀ i, (OnGlobalConnectionStatusChanged sessions none ev acceptOk).1 i
          = sessions i)
    ∧ ∀ sid,
        (OnGlobalConnectionStatusChanged sessions (some sid) ev acceptOk).1 sid
          = (Session.HandleConnectionStatusChanged (sessions sid) ev acceptOk).1
        ∧ (OnGlobalConnectionStatusChanged sessions (some sid) ev acceptOk).2
          = (Session.HandleConnectionStatusChanged (sessions sid) ev acceptOk).2
        ∧ ∀ j, j ≠ sid →
            (OnGlobalConnectionStatusChanged sessions (some sid) ev acceptOk).1 j
              = sessions j := by
  refine ⟨⟨rfl, fun i => rfl⟩, fun sid => ⟨?_, rfl, fun j hj => ?_⟩⟩
  · simp [OnGlobalConnectionStatusChanged]
  · simp [OnGlobalConnectionStatusChanged, hj]

/-- C9 (witness): one client session at id 0, a terminal event dispatched to
it - session 1 is untouched, session 0 is exactly the handler's result, and
a null context drops the event. -/
theorem claim9_witness :
    (OnGlobalConnectionStatusChanged
        (fun _ => Session.client { m_pInterface := true, m_hConnection := 5 })
        (some 0) { m_hConn := 5, m_eState := EConnState.ClosedByPeer } true).1 1
      = Session.client { m_pInterface := true, m_hConnection := 5 }
    ∧ (OnGlobalConnectionStatusChanged
        (fun _ => Session.client { m_pInterface := true, m_hConnection := 5 })
        (some 0) { m_hConn := 5, m_eState := EConnState.ClosedByPeer } true).1 0
      = (Session.HandleConnectionStatusChanged
          (Session.client { m_pInterface := true, m_hConnection := 5 })
          { m_hConn := 5, m_eState := EConnState.ClosedByPeer } true).1
    ∧ (OnGlobalConnectionStatusChanged
        (fun _ => Session.client { m_pInterface := true, m_hConnection := 5 })
        none { m_hConn := 5, m_eState := EConnState.ClosedByPeer } true).2 = [] :=
  ⟨((claim9_thm
      (fun _ => Session.client { m_pInterface := true, m_hConnection := 5 })
      { m_hConn := 5, m_eState := EConnState.ClosedByPeer } true).2 0).2.2 1
      (by decide),
   ((claim9_thm
      (fun _ => Session.client { m_pInterface := true, m_hConnection := 5 })
      { m_hConn := 5, m_eState := EConnState.ClosedByPeer } true).2 0).1,
   (claim9_thm
      (fun _ => Session.client { m_pInterface := true, m_hConnection := 5 })
      { m_hConn := 5, m_eState := EConnState.ClosedByPeer } true).1.1⟩

/-- C10 (counterexample).  The claim as stated is false on the code: the
listen-socket handle is also mutated by `Server::Initialize`, which is
neither status-event handling nor `Stop()` - on a fresh server it moves the
handle from invalid (0) to the transport-granted 7. -/
theorem claim10_counterexample :
    ({ m_pInterface := true, m_hListenSocket := 0, m_vecClients := [],
       m_isRunning := false } : Server).m_hListenSocket = 0
    ∧ (Server.Initialize
        { m_pInterface := true, m_hListenSocket := 0, m_vecClients := [],
          m_isRunning := false } 27020 7).2.1.m_hListenSocket = 7 := by
  decide

/-- C10 (amended).  `BroadcastMessage` and `ReceiveMessages` return the
server state identically unchanged (registry, listen socket, running flag,
facade pointer); status-event handling never touches the listen socket,
running flag or facade pointer (it only mutates the registry); `Initialize`
never touches the registry or the running flag (it only mutates the listen
socket); and `Poll` changes nothing.  So the registry is mutated only by
status-event handling and `Stop()`, and the listen socket only by
`Initialize` and `Stop()`. -/
theorem claim10_thm (s : Server) (msg : List Nat) (queues : Nat → List (List Nat))
    (err : Nat → Bool) (cbSet : Bool) (ev : StatusEvent) (acceptOk : Bool)
    (port granted : Nat) :
    (s.BroadcastMessage msg).1 = s
    ∧ (s.ReceiveMessages queues err cbSet).1 = s
    ∧ (s.HandleConnectionStatusChanged ev acceptOk).1.m_hListenSocket
        = s.m_hListenSocket
    ∧ (s.HandleConnectionStatusChanged ev acceptOk).1.m_isRunning = s.m_isRunning
    ∧ (s.HandleConnectionStatusChanged ev acceptOk).1.m_pInterface = s.m_pInterface
    ∧ (s.Initialize port granted).2.1.m_vecClients = s.m_vecClients
    ∧ (s.Initialize port granted).2.1.m_isRunning = s.m_isRunning
    ∧ s.Poll.1 = s := by
  refine ⟨?_, ?_, ?_, ?_, ?_, ?_, ?_, ?_⟩
  · unfold Server.BroadcastMessage
    split <;> rfl
  · unfold Server.ReceiveMessages
    split <;> rfl
  · unfold Server.HandleConnectionStatusChanged
    rcases ev with ⟨h, st⟩
    cases st <;> first
      | rfl
      | (split <;> first
          | rfl
          | (split <;> rfl))
  · unfold Server.HandleConnectionStatusChanged
    rcases ev with ⟨h, st⟩
    cases st <;> first
      | rfl
      | (split <;> first
          | rfl
          | (split <;> rfl))
  · unfold Server.HandleConnectionStatusChanged
    rcases ev with ⟨h, st⟩
    cases st <;> first
      | rfl
      | (split <;> first
          | rfl
          | (split <;> rfl))
  · unfold Server.Initialize
    split
    · rfl
    · split <;> rfl
  · unfold Server.Initialize
    split
    · rfl
    · split <;> rfl
  · unfold Server.Poll
    split <;> rfl

end QNET
